import Mathlib

/-!
Verification of the mage-ai cleaning-rule base class and server entry points.

The Python sources are shallowly embedded:
* mutable Python containers (lists, dicts, dataframes) live in explicit
  stores indexed by natural-number references, so that aliasing and
  in-place mutation are observable;
* dictionary lookups (`d[k]`) return `Except String`, the error carrying
  the missing key, mirroring Python's `KeyError(k)`;
* external collaborators that are not part of the sources are modelled
  from the specification and marked as such in their doc comments.
-/

/-! ### Constants from mage_ai/data_cleaner/cleaning_rules/base.py -/

def STATUS_NOT_APPLIED : String := "not_applied"

def STATUS_COMPLETED : String := "completed"

/-- Modelled from the spec: `NUMBER_TYPES` is imported from
`mage_ai.data_cleaner.column_types.constants`, which is not among the
sources.  The spec treats column types as opaque tags of which the core
only tests is-numeric membership, so the set is modelled as the two
numeric tags. -/
def NUMBER_TYPES : List String := ["number", "number_with_decimals"]

/-- The membership test `self.column_types[column] in NUMBER_TYPES`. -/
def isNumericType (t : String) : Bool := NUMBER_TYPES.contains t

/-! ### Dataframe values (pandas dataframes, modelled row-wise) -/

/-- A non-null cell value: pandas stores ints and floats; `astype(float)`
converts ints to floats. Floats are modelled as rationals. -/
inductive Val
  | intV (n : Int)
  | floatV (q : Rat)
deriving DecidableEq

/-- A dataframe cell; `none` is a null/missing value (NaN). -/
abbrev Cell := Option Val

/-- Elementwise `astype(float)`: ints become floats, nulls stay null. -/
def astypeFloat (c : Cell) : Cell :=
  c.map (fun v => match v with
    | Val.intV n => Val.floatV n
    | Val.floatV q => Val.floatV q)

/-- A pandas dataframe: a list of column labels plus rows of cells. -/
structure DataFrame where
  header : List String
  rows : List (List Cell)
deriving DecidableEq

/-- The column assignment `df.loc[:, column] = df.loc[:, column].astype(float)`:
every cell sitting under the label `column` is float-cast in place. -/
def DataFrame.astypeFloatCol (df : DataFrame) (column : String) : DataFrame :=
  ⟨df.header,
   df.rows.map (fun row =>
     List.zipWith (fun h x => if h = column then astypeFloat x else x) df.header row)⟩

/-- The call `df.drop(column, axis=1, inplace=True)`: removes every column
labelled `column`; raises `KeyError(column)` when no such label exists. -/
def DataFrame.dropColumn (df : DataFrame) (column : String) : Except String DataFrame :=
  if column ∈ df.header then
    Except.ok ⟨df.header.filter (fun h => h ≠ column),
      df.rows.map (fun row =>
        ((df.header.zip row).filter (fun p => p.1 ≠ column)).map Prod.snd)⟩
  else Except.error column

/-- The call `df.dropna(axis=0)`: keeps exactly the rows without nulls. -/
def DataFrame.dropna (df : DataFrame) : DataFrame :=
  ⟨df.header, df.rows.filter (fun row => row.all (fun c => c.isSome))⟩

/-! ### A heap of dataframe objects

Python dataframes are mutable heap objects; `df.copy()` allocates a fresh
object, while `loc`-assignment and `inplace=True` drops mutate in place.
The heap is a list of dataframe values addressed by position. -/

abbrev DfStore := List DataFrame

def dfRead (st : DfStore) (i : Nat) : DataFrame := st.getD i ⟨[], []⟩

def dfWrite (st : DfStore) (i : Nat) (v : DataFrame) : DfStore := st.set i v

/-- Allocation returns the extended store and the fresh reference. -/
def dfAlloc (st : DfStore) (v : DataFrame) : DfStore × Nat := (st ++ [v], st.length)

/-! ### class BaseRule -/

/-- The state of a `BaseRule` instance: `df` is a reference into the
dataframe heap, the other fields are the values stored by `__init__`.
Statistics are opaque to the methods verified here. -/
structure BaseRule where
  df : Nat
  df_columns : List String
  column_types : List (String × String)
  statistics : List (String × String)

/-- `BaseRule.__init__`: stores the dataframe reference, a snapshot of its
column list, the column-type map and the statistics map. -/
def BaseRule.init (st : DfStore) (dfRef : Nat) (column_types : List (String × String))
    (statistics : List (String × String)) : BaseRule :=
  ⟨dfRef, (dfRead st dfRef).header, column_types, statistics⟩

/-- The column loop of `_filter_numeric_types`, acting on the heap:
for each column, a numeric type triggers an in-place float cast of that
column of `numeric_df` (the object at `numRef`) and the column is appended
to `numeric_columns`; otherwise the column is dropped in place.  A column
name absent from the type map raises `KeyError` (`Except.error`). -/
def filterLoop (ct : List (String × String)) (numRef : Nat) :
    List String → DfStore → List String → DfStore × Except String (List String)
  | [], st, acc => (st, Except.ok acc)
  | column :: rest, st, acc =>
    match ct.lookup column with
    | none => (st, Except.error column)
    | some t =>
      if isNumericType t then
        filterLoop ct numRef rest
          (dfWrite st numRef ((dfRead st numRef).astypeFloatCol column)) (acc ++ [column])
      else
        match (dfRead st numRef).dropColumn column with
        | Except.error e => (st, Except.error e)
        | Except.ok df2 => filterLoop ct numRef rest (dfWrite st numRef df2) acc

/-- `BaseRule._filter_numeric_types`: copies `self.df` into a fresh object
`numeric_df`, runs the column loop on the copy, then rebinds `numeric_df`
to the freshly allocated result of `dropna`, returning the final reference
together with `numeric_columns`. -/
def BaseRule.filter_numeric_types (r : BaseRule) (st : DfStore) :
    DfStore × Except String (Nat × List String) :=
  let a := dfAlloc st (dfRead st r.df)
  match filterLoop r.column_types a.2 r.df_columns a.1 [] with
  | (st2, Except.error e) => (st2, Except.error e)
  | (st2, Except.ok numeric_columns) =>
    let b := dfAlloc st2 ((dfRead st2 a.2).dropna)
    (b.1, Except.ok (b.2, numeric_columns))

/-- Value-level description of the column loop of `_filter_numeric_types`,
used to reason about the single heap cell the loop touches. -/
def filterLoopVal (ct : List (String × String)) :
    List String → DataFrame → List String → Except String (DataFrame × List String)
  | [], df, acc => Except.ok (df, acc)
  | column :: rest, df, acc =>
    match ct.lookup column with
    | none => Except.error column
    | some t =>
      if isNumericType t then
        filterLoopVal ct rest (df.astypeFloatCol column) (acc ++ [column])
      else
        match df.dropColumn column with
        | Except.error e => Except.error e
        | Except.ok df2 => filterLoopVal ct rest df2 acc

/-- Whether the rule's type map classifies column `c` as numeric. -/
def numericP (ct : List (String × String)) (c : String) : Bool :=
  match ct.lookup c with
  | some t => isNumericType t
  | none => false

/-! ### _build_action_variables -/

structure ActionVariableFeature where
  column_type : String
  uuid : String
deriving DecidableEq

structure ActionVariable where
  feature : ActionVariableFeature
  type : String
deriving DecidableEq

/-- Python dict assignment `d[k] = v`: replaces the value of an existing
key in place, otherwise appends the new binding at the end. -/
def dictInsert {β : Type} (d : List (String × β)) (k : String) (v : β) :
    List (String × β) :=
  match List.lookup k d with
  | some _ => d.map (fun p => if p.1 = k then (k, v) else p)
  | none => d ++ [(k, v)]

/-- The loop of `_build_action_variables`: builds `variable_set` by
assigning one descriptor per column; `self.column_types[column_name]`
raises `KeyError` when the column is absent from the map. -/
def buildAVLoop (ct : List (String × String)) :
    List String → List (String × ActionVariable) →
    Except String (List (String × ActionVariable))
  | [], variable_set => Except.ok variable_set
  | column_name :: rest, variable_set =>
    match ct.lookup column_name with
    | none => Except.error column_name
    | some t =>
      buildAVLoop ct rest (dictInsert variable_set column_name ⟨⟨t, column_name⟩, "feature"⟩)

/-- `BaseRule._build_action_variables`: starts from the empty dict. -/
def BaseRule.build_action_variables (r : BaseRule) (columns : List String) :
    Except String (List (String × ActionVariable)) :=
  buildAVLoop r.column_types columns []

/-! ### _build_transformer_action_suggestion

Python evaluates default-argument expressions once, when the `def` is
executed, and reuses the resulting objects on every later call.  The
mutable defaults `[]` and `\x7b\x7d` are therefore heap objects shared by
all calls that omit the corresponding argument.  `PyStore` is a heap of
list objects and dict objects, addressed by position; `α` is the element
type of lists, `β` the value type of dicts. -/

structure PyStore (α β : Type) where
  lists : List (List α)
  dicts : List (List (String × β))

def PyStore.readList {α β : Type} (st : PyStore α β) (r : Nat) : List α :=
  st.lists.getD r []

def PyStore.readDict {α β : Type} (st : PyStore α β) (r : Nat) : List (String × β) :=
  st.dicts.getD r []

def PyStore.allocList {α β : Type} (st : PyStore α β) (v : List α) : PyStore α β × Nat :=
  (⟨st.lists ++ [v], st.dicts⟩, st.lists.length)

def PyStore.allocDict {α β : Type} (st : PyStore α β) (v : List (String × β)) :
    PyStore α β × Nat :=
  (⟨st.lists, st.dicts ++ [v]⟩, st.dicts.length)

/-- Python `lst.append(x)` on the list object at reference `r`. -/
def PyStore.listAppend {α β : Type} (st : PyStore α β) (r : Nat) (x : α) : PyStore α β :=
  ⟨st.lists.set r (st.lists.getD r [] ++ [x]), st.dicts⟩

/-- The payload dict built by `_build_transformer_action_suggestion`.
List- and dict-valued fields hold references into the `PyStore`; strings
are immutable in Python and held by value. -/
structure ActionPayload where
  action_type : String
  action_arguments : Nat
  action_code : String
  action_options : Nat
  action_variables : Nat
  axis : String
  outputs : Nat
deriving DecidableEq

structure Suggestion where
  title : String
  message : String
  status : String
  action_payload : ActionPayload
deriving DecidableEq

/-- The default-argument objects of `_build_transformer_action_suggestion`,
captured when the enclosing `def` is executed. -/
structure BuilderDefaults where
  action_arguments : Nat
  action_code : String
  action_options : Nat
  action_variables : Nat
  axis : String
  outputs : Nat
deriving DecidableEq

/-- Executing the `def _build_transformer_action_suggestion(...)` line:
the default expressions `[]`, `''`, `\x7b\x7d`, `\x7b\x7d`, `'column'`,
`[]` are evaluated once, allocating the two default list objects and the
two default dict objects. -/
def defineBuilder {α β : Type} (st : PyStore α β) : PyStore α β × BuilderDefaults :=
  let a1 := st.allocList []
  let a2 := a1.1.allocDict []
  let a3 := a2.1.allocDict []
  let a4 := a3.1.allocList []
  (a4.1, ⟨a1.2, "", a2.2, a3.2, "column", a4.2⟩)

/-- A call to `_build_transformer_action_suggestion`: `none` means the
caller omitted the argument, in which case the stored default object (or
default string) is used. -/
def build_transformer_action_suggestion (d : BuilderDefaults)
    (title message action_type : String)
    (action_arguments : Option Nat) (action_code : Option String)
    (action_options : Option Nat) (action_variables : Option Nat)
    (axis : Option String) (outputs : Option Nat) : Suggestion :=
  ⟨title, message, STATUS_NOT_APPLIED,
   ⟨action_type,
    action_arguments.getD d.action_arguments,
    action_code.getD d.action_code,
    action_options.getD d.action_options,
    action_variables.getD d.action_variables,
    axis.getD d.axis,
    outputs.getD d.outputs⟩⟩

/-! ### mage_ai/server/app.py: rescue_errors -/

/-- A raised Python exception as observed by `rescue_errors`:
`str(err)`, `traceback.format_exc()` and `traceback.format_stack()`. -/
structure PyExc where
  text : String
  formatted : String
  stack : List String
deriving DecidableEq

/-- The error object serialized into the rescue response body. -/
structure ErrorObj where
  code : Nat
  errors : List String
  exception : String
  message : String
  type : Option String
deriving DecidableEq

/-- The body of a Flask response: either the endpoint's own content or the
JSON error object produced by `rescue_errors`. -/
inductive RespBody (γ : Type)
  | content (a : γ)
  | err (e : ErrorObj)
deriving DecidableEq

/-- `app.response_class(response=..., status=..., mimetype=...)`. -/
structure Response (γ : Type) where
  response : RespBody γ
  status : Nat
  mimetype : String
deriving DecidableEq

/-- `rescue_errors(endpoint, error_code)`: the wrapped handler.  A normal
return passes through; a raised exception is converted into a 200 JSON
response carrying the error object. -/
def rescue_errors {γ A : Type} (error_code : Nat)
    (endpoint : A → Except PyExc (Response γ)) (args : A) : Response γ :=
  match endpoint args with
  | Except.ok response => response
  | Except.error err =>
      ⟨RespBody.err ⟨error_code, err.stack, err.text, err.formatted, none⟩,
       200, "application/json"⟩

/-- The bare-decorator form `@rescue_errors` used on every endpoint in
app.py, taking the default `error_code=500`. -/
def rescue_errors_default {γ A : Type} (endpoint : A → Except PyExc (Response γ))
    (args : A) : Response γ :=
  rescue_errors 500 endpoint args

/-! ### mage_ai/server/app.py: update_pipeline -/

/-- Modelled from the spec: `FeatureSet` (mage_ai.server.data.models) is
not among the sources.  Only the members read by `update_pipeline` are
modelled: `data_orig` and the `column_types` entry of its metadata. -/
structure FeatureSetRec (Df : Type) where
  data_orig : Df
  column_types : List (String × String)

/-- Modelled from the spec: `Pipeline` (mage_ai.server.data.models) is not
among the sources.  `actions` is the stored pipeline's action list
(`pipeline.pipeline.actions`); `feature_set_id` is the
`feature_set_id` entry of its metadata. -/
structure PipelineRec (A : Type) where
  actions : List A
  feature_set_id : Option Nat
deriving DecidableEq

/-- Modelled from the spec: the external collaborators called by
`update_pipeline` — `generate_action_titles` (title filling),
`BasePipeline.transform` (deterministic replay) and `clean_data`
(statistics recomputation) — are not among the sources and are kept
abstract. -/
structure UpdateEnv (A Df R : Type) where
  generate_action_titles : List A → List A
  transform : List A → Df → Df
  clean_data : Df → List (String × String) → R

/-- Observable effects of `update_pipeline`, in execution order:
the wholesale replacement `pipeline.pipeline = clean_pipeline`, the call
`feature_set.write_files(result, prev_version=...)`, and the remote
`pipeline.sync_pipeline(api_key)` whose outcome is `ok`. -/
inductive PipeEv (R : Type)
  | set_pipeline
  | write_files (result : R) (prev_version : Nat)
  | sync_call (ok : Bool)
deriving DecidableEq

/-- `update_pipeline` (PUT /pipelines/id): builds `clean_pipeline` from
the title-filled request actions; when the pipeline references a feature
set it transforms the original data, recomputes stats, captures
`prev_version = len(pipeline.pipeline.actions)` before the replacement
and writes the files; otherwise it just replaces the stored pipeline.
Finally, when a credential is present, it fires the remote sync, whose
outcome `sync_ok` is supplied by the environment.  Modelled from the
spec for the missing collaborators: sync is fire-and-forget and does not
touch local state. -/
def update_pipeline {A Df R : Type} (env : UpdateEnv A Df R)
    (featureSetOf : Nat → FeatureSetRec Df) (api_key : Option String)
    (sync_ok : Bool) (pipeline : PipelineRec A)
    (request_actions : Option (List A)) : PipelineRec A × List (PipeEv R) :=
  let actions := request_actions.getD []
  let actions2 := env.generate_action_titles actions
  let mutated : PipelineRec A × List (PipeEv R) :=
    match pipeline.feature_set_id with
    | some fsId =>
      let fs := featureSetOf fsId
      let df_transformed := env.transform actions2 fs.data_orig
      let result := env.clean_data df_transformed fs.column_types
      let prev_version := pipeline.actions.length
      (⟨actions2, pipeline.feature_set_id⟩,
       [PipeEv.set_pipeline, PipeEv.write_files result prev_version])
    | none => (⟨actions2, pipeline.feature_set_id⟩, [PipeEv.set_pipeline])
  match api_key with
  | some _ => (mutated.1, mutated.2 ++ [PipeEv.sync_call sync_ok])
  | none => mutated

/-! ### mage_ai/server/app.py: clean_df_with_pipeline -/

/-- Modelled from the spec: the pipeline loaders used by
`clean_df_with_pipeline` — `Pipeline(id=...).pipeline`,
`Pipeline(path=...).pipeline` and
`Mage().get_pipeline_actions(remote_id, key)` — are not among the
sources.  The first two may yield no pipeline; the remote loader always
wraps its result in a fresh `BasePipeline`. -/
structure CleanEnv (A Df : Type) where
  loadById : String → Option (List A)
  loadByPath : String → Option (List A)
  getRemoteActions : String → Option String → List A
  transform : List A → Df → Df

/-- Observable effects of `clean_df_with_pipeline`: which loader ran,
whether the missing-pipeline error was logged, and whether a transform
was applied. -/
inductive CleanEv
  | load_by_id
  | load_by_path
  | load_by_remote
  | log_error
  | transform_applied
deriving DecidableEq

/-- `clean_df_with_pipeline`: tries `id`, then `path`, then `remote_id` to
obtain a pipeline; when none identifies one, logs an error and returns
the input dataframe unchanged; otherwise replays the pipeline over the
dataframe.  `global_api_key` models the module-level `api_key`. -/
def clean_df_with_pipeline {A Df : Type} (env : CleanEnv A Df)
    (global_api_key : Option String) (df : Df)
    (id path remote_id : Option String) (mage_api_key : Option String) :
    Df × List CleanEv :=
  let loaded : Option (List A) × List CleanEv :=
    match id with
    | some i => (env.loadById i, [CleanEv.load_by_id])
    | none =>
      match path with
      | some pth => (env.loadByPath pth, [CleanEv.load_by_path])
      | none =>
        match remote_id with
        | some rid =>
          let final_key := match mage_api_key with
            | some k => some k
            | none => global_api_key
          (some (env.getRemoteActions rid final_key), [CleanEv.load_by_remote])
        | none => (none, [])
  match loaded with
  | (none, evs) => (df, evs ++ [CleanEv.log_error])
  | (some pl, evs) => (env.transform pl df, evs ++ [CleanEv.transform_applied])

/-! ### Concrete instantiations used by the witnesses -/

/-- A concrete update environment: titles are left unchanged, data and
statistics results are trivial. -/
def envU : UpdateEnv String Unit Unit :=
  ⟨fun l => l, fun _ _ => (), fun _ _ => ()⟩

/-- A concrete feature-set table for the witnesses. -/
def fsOfU : Nat → FeatureSetRec Unit := fun _ => ⟨(), []⟩

/-- A concrete endpoint that always raises. -/
def endpointBoom : Unit → Except PyExc (Response Unit) :=
  fun _ => Except.error ⟨"boom", "Traceback (most recent call last)", ["frame1"]⟩

/-- A concrete cleaning environment for the witnesses. -/
def envC : CleanEnv String Nat :=
  ⟨fun _ => none, fun _ => none, fun _ _ => [], fun _ d => d + 1⟩

/-- A concrete dataframe: an `age` column with one missing value and a
`city` column, matching the spec's running example. -/
def dfExample : DataFrame :=
  ⟨["age", "city"],
   [[some (Val.intV 21), some (Val.intV 7)],
    [none, some (Val.intV 8)],
    [some (Val.intV 35), some (Val.intV 9)]]⟩

/-- The column-type map of the example. -/
def ctExample : List (String × String) := [("age", "number"), ("city", "text")]

/-- A column-type map missing the `city` column. -/
def ctMissing : List (String × String) := [("age", "number")]

/-! ### Helper lemmas: stores and association lists -/

theorem getD_set_self {γ : Type} (l : List γ) (i : Nat) (v d : γ) (h : i < l.length) :
    (l.set i v).getD i d = v := by
  induction l generalizing i with
  | nil => simp at h
  | cons a t ih =>
    cases i with
    | zero => rfl
    | succ n => simpa using ih n (by simpa using h)

theorem getD_set_ne {γ : Type} (l : List γ) (i j : Nat) (v d : γ) (h : j ≠ i) :
    (l.set i v).getD j d = l.getD j d := by
  induction l generalizing i j with
  | nil => rfl
  | cons a t ih =>
    cases i with
    | zero =>
      cases j with
      | zero => exact absurd rfl h
      | succ m => simp [List.getD_cons_succ]
    | succ n =>
      cases j with
      | zero => rfl
      | succ m => simpa using ih n m (by omega)

theorem dfRead_dfWrite_self (st : DfStore) (i : Nat) (v : DataFrame) (h : i < st.length) :
    dfRead (dfWrite st i v) i = v :=
  getD_set_self st i v ⟨[], []⟩ h

theorem dfRead_dfWrite_ne (st : DfStore) (i j : Nat) (v : DataFrame) (h : j ≠ i) :
    dfRead (dfWrite st i v) j = dfRead st j :=
  getD_set_ne st i j v ⟨[], []⟩ h

theorem length_dfWrite (st : DfStore) (i : Nat) (v : DataFrame) :
    (dfWrite st i v).length = st.length := by
  simp [dfWrite]

theorem dfRead_append_lt (st ys : DfStore) (j : Nat) (h : j < st.length) :
    dfRead (st ++ ys) j = dfRead st j :=
  List.getD_append st ys ⟨[], []⟩ j h

theorem dfRead_append_self (st : DfStore) (v : DataFrame) :
    dfRead (st ++ [v]) st.length = v := by
  unfold dfRead
  rw [List.getD_append_right st [v] _ st.length (Nat.le_refl _)]
  simp

theorem lookup_cons_eq {β : Type} (k a : String) (b : β) (es : List (String × β)) :
    List.lookup a ((k, b) :: es) = if a = k then some b else List.lookup a es := by
  by_cases h : a = k
  · simp [List.lookup, h]
  · have hb : (a == k) = false := by simp [h]
    simp [List.lookup, hb, h]

theorem lookup_append {β : Type} (a : String) (d d' : List (String × β)) :
    List.lookup a (d ++ d')
      = match List.lookup a d with
        | some v => some v
        | none => List.lookup a d' := by
  induction d with
  | nil => simp [List.lookup]
  | cons p t ih =>
    obtain ⟨k, b⟩ := p
    by_cases h : a = k
    · simp [lookup_cons_eq, h]
    · simp only [List.cons_append, lookup_cons_eq, if_neg h]
      exact ih

theorem lookup_map_overwrite {β : Type} (k : String) (v : β) (d : List (String × β)) :
    List.lookup k (d.map (fun p => if p.1 = k then (k, v) else p))
      = Option.map (fun _ => v) (List.lookup k d) := by
  induction d with
  | nil => simp [List.lookup]
  | cons p t ih =>
    obtain ⟨a, b⟩ := p
    by_cases h : a = k
    · subst h
      simp only [List.map_cons, if_pos rfl]
      rw [lookup_cons_eq, lookup_cons_eq]
      simp
    · simp only [List.map_cons, if_neg h]
      rw [lookup_cons_eq, lookup_cons_eq]
      have hk : ¬ k = a := fun e => h e.symm
      simp [hk, ih]

theorem lookup_map_overwrite_ne {β : Type} (k k' : String) (v : β)
    (d : List (String × β)) (h : k' ≠ k) :
    List.lookup k' (d.map (fun p => if p.1 = k then (k, v) else p))
      = List.lookup k' d := by
  induction d with
  | nil => simp
  | cons p t ih =>
    obtain ⟨a, b⟩ := p
    by_cases ha : a = k
    · subst ha
      simp only [List.map_cons, if_pos rfl]
      rw [lookup_cons_eq, lookup_cons_eq]
      simp [h, ih]
    · simp only [List.map_cons, if_neg ha]
      rw [lookup_cons_eq, lookup_cons_eq]
      by_cases hk : k' = a <;> simp [hk, ih]

theorem lookup_dictInsert_self {β : Type} (d : List (String × β)) (k : String) (v : β) :
    List.lookup k (dictInsert d k v) = some v := by
  unfold dictInsert
  cases hl : List.lookup k d with
  | some w =>
    rw [lookup_map_overwrite, hl]
    rfl
  | none =>
    rw [lookup_append, hl]
    simp [lookup_cons_eq]

theorem lookup_dictInsert_ne {β : Type} (d : List (String × β)) (k k' : String) (v : β)
    (h : k' ≠ k) : List.lookup k' (dictInsert d k v) = List.lookup k' d := by
  unfold dictInsert
  cases hl : List.lookup k d with
  | some w => exact lookup_map_overwrite_ne k k' v d h
  | none =>
    rw [lookup_append]
    cases hl' : List.lookup k' d with
    | some w => simp
    | none => simp [lookup_cons_eq, h]

/-! ### Helper lemmas: _build_action_variables -/

theorem buildAVLoop_ok (ct : List (String × String)) :
    ∀ (cols : List String) (acc : List (String × ActionVariable)),
    (∀ c ∈ cols, (ct.lookup c).isSome) →
    ∃ m, buildAVLoop ct cols acc = Except.ok m ∧
      ∀ k, List.lookup k m
        = if k ∈ cols then
            Option.map (fun t => (⟨⟨t, k⟩, "feature"⟩ : ActionVariable)) (ct.lookup k)
          else List.lookup k acc := by
  intro cols
  induction cols with
  | nil =>
    intro acc _
    exact ⟨acc, rfl, fun k => by simp⟩
  | cons c rest ih =>
    intro acc hcov
    have hc : (ct.lookup c).isSome := hcov c (List.mem_cons_self c rest)
    obtain ⟨t, ht⟩ : ∃ t, ct.lookup c = some t := by
      cases hlk : ct.lookup c with
      | none => rw [hlk] at hc; simp at hc
      | some t => exact ⟨t, rfl⟩
    obtain ⟨m, hm, hchar⟩ := ih (dictInsert acc c ⟨⟨t, c⟩, "feature"⟩)
      (fun x hx => hcov x (List.mem_cons_of_mem c hx))
    refine ⟨m, ?_, ?_⟩
    · simp only [buildAVLoop, ht]
      exact hm
    · intro k
      rw [hchar k]
      by_cases hkr : k ∈ rest
      · simp [hkr]
      · by_cases hkc : k = c
        · subst hkc
          rw [if_neg hkr, if_pos (List.mem_cons_self k rest)]
          rw [lookup_dictInsert_self, ht]
          rfl
        · rw [if_neg hkr, if_neg (by simp [hkc, hkr])]
          exact lookup_dictInsert_ne acc c k _ hkc

theorem buildAVLoop_err (ct : List (String × String)) :
    ∀ (cols : List String) (acc : List (String × ActionVariable)),
    (∃ c ∈ cols, (ct.lookup c).isSome = false) →
    ∃ c2, c2 ∈ cols ∧ (ct.lookup c2).isSome = false ∧
      buildAVLoop ct cols acc = Except.error c2 := by
  intro cols
  induction cols with
  | nil =>
    intro acc h
    obtain ⟨c, hc, _⟩ := h
    simp at hc
  | cons c rest ih =>
    intro acc h
    cases hlk : ct.lookup c with
    | none =>
      exact ⟨c, List.mem_cons_self c rest, by simp [hlk], by simp only [buildAVLoop, hlk]⟩
    | some t =>
      have hrest : ∃ c2 ∈ rest, (ct.lookup c2).isSome = false := by
        obtain ⟨c2, hc2, hmiss⟩ := h
        rcases List.mem_cons.mp hc2 with he | hm
        · subst he; rw [hlk] at hmiss; simp at hmiss
        · exact ⟨c2, hm, hmiss⟩
      obtain ⟨c2, hc2, hmiss, heq⟩ := ih (dictInsert acc c ⟨⟨t, c⟩, "feature"⟩) hrest
      refine ⟨c2, List.mem_cons_of_mem c hc2, hmiss, ?_⟩
      simp only [buildAVLoop, hlk]
      exact heq

/-! ### Helper lemmas: dataframe operations -/

theorem filter_ne_of_not_mem (l : List String) (c : String) (h : c ∉ l) :
    l.filter (fun x => x ≠ c) = l := by
  refine List.filter_eq_self.mpr (fun a ha => ?_)
  simp only [ne_eq, decide_eq_true_eq]
  exact fun e => h (e ▸ ha)

theorem astypeFloatCol_header (df : DataFrame) (c : String) :
    (df.astypeFloatCol c).header = df.header := rfl

theorem astypeFloatCol_rows_length (df : DataFrame) (c : String) :
    (df.astypeFloatCol c).rows.length = df.rows.length := by
  simp [DataFrame.astypeFloatCol]

theorem dropColumn_ok (df : DataFrame) (c : String) (h : c ∈ df.header) :
    df.dropColumn c = Except.ok ⟨df.header.filter (fun x => x ≠ c),
      df.rows.map (fun row =>
        ((df.header.zip row).filter (fun p => p.1 ≠ c)).map Prod.snd)⟩ := by
  simp [DataFrame.dropColumn, h]

theorem dropna_header (df : DataFrame) : df.dropna.header = df.header := rfl

theorem dropna_rows_length_le (df : DataFrame) :
    df.dropna.rows.length ≤ df.rows.length :=
  List.length_filter_le _ _

theorem dropna_no_nulls (df : DataFrame) :
    ∀ row ∈ df.dropna.rows, ∀ cell ∈ row, cell.isSome = true := by
  intro row hrow cell hcell
  have hall := List.of_mem_filter hrow
  exact List.all_eq_true.mp hall cell hcell

/-! ### Helper lemmas: the _filter_numeric_types column loop -/

theorem filterLoopVal_ok (ct : List (String × String)) :
    ∀ (cols done acc : List String) (df : DataFrame),
    df.header = done ++ cols →
    cols.Nodup →
    (∀ x ∈ cols, x ∉ done) →
    (∀ x ∈ cols, (ct.lookup x).isSome) →
    ∃ df2, filterLoopVal ct cols df acc
        = Except.ok (df2, acc ++ cols.filter (numericP ct)) ∧
      df2.header = done ++ cols.filter (numericP ct) ∧
      df2.rows.length = df.rows.length := by
  intro cols
  induction cols with
  | nil =>
    intro done acc df hh _ _ _
    refine ⟨df, ?_, ?_, rfl⟩
    · simp [filterLoopVal]
    · simpa using hh
  | cons c rest ih =>
    intro done acc df hh hnd hdisj hcov
    obtain ⟨hcr, hndr⟩ := List.nodup_cons.mp hnd
    have hc : (ct.lookup c).isSome := hcov c (List.mem_cons_self c rest)
    obtain ⟨t, ht⟩ : ∃ t, ct.lookup c = some t := by
      cases hlk : ct.lookup c with
      | none => rw [hlk] at hc; simp at hc
      | some t => exact ⟨t, rfl⟩
    have hnum : numericP ct c = isNumericType t := by simp [numericP, ht]
    cases hn : isNumericType t with
    | true =>
      have hdisj2 : ∀ x ∈ rest, x ∉ done ++ [c] := by
        intro x hx hmem
        rcases List.mem_append.mp hmem with h1 | h2
        · exact hdisj x (List.mem_cons_of_mem c hx) h1
        · have hxc : x = c := by simpa using h2
          exact hcr (hxc ▸ hx)
      obtain ⟨df2, heq, hhd, hrows⟩ := ih (done ++ [c]) (acc ++ [c]) (df.astypeFloatCol c)
        (by rw [astypeFloatCol_header, hh]; simp)
        hndr hdisj2 (fun x hx => hcov x (List.mem_cons_of_mem c hx))
      have hfc : (c :: rest).filter (numericP ct) = c :: rest.filter (numericP ct) :=
        List.filter_cons_of_pos (by rw [hnum]; exact hn)
      refine ⟨df2, ?_, ?_, ?_⟩
      · simp only [filterLoopVal, ht, hn, if_true]
        rw [heq, hfc]
        simp
      · rw [hhd, hfc]
        simp
      · rw [hrows, astypeFloatCol_rows_length]
    | false =>
      have hcin : c ∈ df.header := by rw [hh]; simp
      have hfilter : df.header.filter (fun x => x ≠ c) = done ++ rest := by
        rw [hh, List.filter_append]
        have h1 : done.filter (fun x => x ≠ c) = done :=
          filter_ne_of_not_mem done c (hdisj c (List.mem_cons_self c rest))
        have h2 : (c :: rest).filter (fun x => x ≠ c) = rest := by
          rw [List.filter_cons_of_neg (by simp)]
          exact filter_ne_of_not_mem rest c hcr
        rw [h1, h2]
      obtain ⟨df2, heq, hhd, hrows⟩ := ih done acc
        ⟨df.header.filter (fun x => x ≠ c),
         df.rows.map (fun row =>
           ((df.header.zip row).filter (fun p => p.1 ≠ c)).map Prod.snd)⟩
        hfilter hndr
        (fun x hx => hdisj x (List.mem_cons_of_mem c hx))
        (fun x hx => hcov x (List.mem_cons_of_mem c hx))
      have hfc : (c :: rest).filter (numericP ct) = rest.filter (numericP ct) :=
        List.filter_cons_of_neg (by simp [hnum, hn])
      refine ⟨df2, ?_, ?_, ?_⟩
      · simp only [filterLoopVal, ht, hn, Bool.false_eq_true, if_false]
        rw [dropColumn_ok df c hcin, hfc]
        exact heq
      · rw [hhd, hfc]
      · rw [hrows]
        simp

theorem filterLoopVal_err (ct : List (String × String)) :
    ∀ (cols done acc : List String) (df : DataFrame),
    df.header = done ++ cols →
    cols.Nodup →
    (∀ x ∈ cols, x ∉ done) →
    (∃ x ∈ cols, (ct.lookup x).isSome = false) →
    ∃ c2, c2 ∈ cols ∧ (ct.lookup c2).isSome = false ∧
      filterLoopVal ct cols df acc = Except.error c2 := by
  intro cols
  induction cols with
  | nil =>
    intro done acc df _ _ _ h
    obtain ⟨c, hc, _⟩ := h
    simp at hc
  | cons c rest ih =>
    intro done acc df hh hnd hdisj h
    obtain ⟨hcr, hndr⟩ := List.nodup_cons.mp hnd
    cases hlk : ct.lookup c with
    | none =>
      exact ⟨c, List.mem_cons_self c rest, by simp [hlk],
        by simp only [filterLoopVal, hlk]⟩
    | some t =>
      have hrest : ∃ x ∈ rest, (ct.lookup x).isSome = false := by
        obtain ⟨c2, hc2, hmiss⟩ := h
        rcases List.mem_cons.mp hc2 with he | hm
        · subst he; rw [hlk] at hmiss; simp at hmiss
        · exact ⟨c2, hm, hmiss⟩
      cases hn : isNumericType t with
      | true =>
        have hdisj2 : ∀ x ∈ rest, x ∉ done ++ [c] := by
          intro x hx hmem
          rcases List.mem_append.mp hmem with h1 | h2
          · exact hdisj x (List.mem_cons_of_mem c hx) h1
          · have hxc : x = c := by simpa using h2
            exact hcr (hxc ▸ hx)
        obtain ⟨c2, hc2, hmiss, heq⟩ := ih (done ++ [c]) (acc ++ [c]) (df.astypeFloatCol c)
          (by rw [astypeFloatCol_header, hh]; simp)
          hndr hdisj2 hrest
        refine ⟨c2, List.mem_cons_of_mem c hc2, hmiss, ?_⟩
        simp only [filterLoopVal, hlk, hn, if_true]
        exact heq
      | false =>
        have hcin : c ∈ df.header := by rw [hh]; simp
        have hfilter : df.header.filter (fun x => x ≠ c) = done ++ rest := by
          rw [hh, List.filter_append]
          have h1 : done.filter (fun x => x ≠ c) = done :=
            filter_ne_of_not_mem done c (hdisj c (List.mem_cons_self c rest))
          have h2 : (c :: rest).filter (fun x => x ≠ c) = rest := by
            rw [List.filter_cons_of_neg (by simp)]
            exact filter_ne_of_not_mem rest c hcr
          rw [h1, h2]
        obtain ⟨c2, hc2, hmiss, heq⟩ := ih done acc
          ⟨df.header.filter (fun x => x ≠ c),
           df.rows.map (fun row =>
             ((df.header.zip row).filter (fun p => p.1 ≠ c)).map Prod.snd)⟩
          hfilter hndr
          (fun x hx => hdisj x (List.mem_cons_of_mem c hx)) hrest
        refine ⟨c2, List.mem_cons_of_mem c hc2, hmiss, ?_⟩
        simp only [filterLoopVal, hlk, hn, Bool.false_eq_true, if_false]
        rw [dropColumn_ok df c hcin]
        exact heq

theorem filterLoop_spec (ct : List (String × String)) (numRef : Nat) :
    ∀ (cols : List String) (st : DfStore) (acc : List String), numRef < st.length →
    (filterLoop ct numRef cols st acc).1.length = st.length ∧
    (∀ j, j ≠ numRef →
      dfRead (filterLoop ct numRef cols st acc).1 j = dfRead st j) ∧
    (∀ e, filterLoopVal ct cols (dfRead st numRef) acc = Except.error e →
      (filterLoop ct numRef cols st acc).2 = Except.error e) ∧
    (∀ df2 nc, filterLoopVal ct cols (dfRead st numRef) acc = Except.ok (df2, nc) →
      (filterLoop ct numRef cols st acc).2 = Except.ok nc ∧
      dfRead (filterLoop ct numRef cols st acc).1 numRef = df2) := by
  intro cols
  induction cols with
  | nil =>
    intro st acc h
    refine ⟨rfl, fun j _ => rfl, ?_, ?_⟩
    · intro e he
      simp [filterLoopVal] at he
    · intro df2 nc hok
      simp only [filterLoopVal, Except.ok.injEq, Prod.mk.injEq] at hok
      obtain ⟨h1, h2⟩ := hok
      subst h2
      exact ⟨rfl, h1⟩
  | cons c rest ih =>
    intro st acc h
    cases hlk : ct.lookup c with
    | none =>
      refine ⟨?_, ?_, ?_, ?_⟩
      · simp only [filterLoop, hlk]
      · intro j _
        simp only [filterLoop, hlk]
      · intro e he
        simp only [filterLoopVal, hlk] at he
        injection he with he2
        simp only [filterLoop, hlk]
        rw [he2]
      · intro df2 nc hok
        simp only [filterLoopVal, hlk] at hok
        exact Except.noConfusion hok
    | some t =>
      cases hn : isNumericType t with
      | true =>
        have h' : numRef < (dfWrite st numRef ((dfRead st numRef).astypeFloatCol c)).length := by
          rw [length_dfWrite]; exact h
        obtain ⟨ihlen, ihframe, iherr, ihok⟩ :=
          ih (dfWrite st numRef ((dfRead st numRef).astypeFloatCol c)) (acc ++ [c]) h'
        have hread : dfRead (dfWrite st numRef ((dfRead st numRef).astypeFloatCol c)) numRef
            = (dfRead st numRef).astypeFloatCol c :=
          dfRead_dfWrite_self st numRef _ h
        refine ⟨?_, ?_, ?_, ?_⟩
        · simp only [filterLoop, hlk, hn, if_true]
          rw [ihlen, length_dfWrite]
        · intro j hj
          simp only [filterLoop, hlk, hn, if_true]
          rw [ihframe j hj, dfRead_dfWrite_ne st numRef j _ hj]
        · intro e he
          simp only [filterLoopVal, hlk, hn, if_true] at he
          rw [← hread] at he
          simp only [filterLoop, hlk, hn, if_true]
          exact iherr e he
        · intro df2 nc hok
          simp only [filterLoopVal, hlk, hn, if_true] at hok
          rw [← hread] at hok
          simp only [filterLoop, hlk, hn, if_true]
          exact ihok df2 nc hok
      | false =>
        cases hdc : (dfRead st numRef).dropColumn c with
        | error e0 =>
          refine ⟨?_, ?_, ?_, ?_⟩
          · simp only [filterLoop, hlk, hn, Bool.false_eq_true, if_false, hdc]
          · intro j _
            simp only [filterLoop, hlk, hn, Bool.false_eq_true, if_false, hdc]
          · intro e he
            simp only [filterLoopVal, hlk, hn, Bool.false_eq_true, if_false, hdc] at he
            injection he with he2
            simp only [filterLoop, hlk, hn, Bool.false_eq_true, if_false, hdc]
            rw [he2]
          · intro df2 nc hok
            simp only [filterLoopVal, hlk, hn, Bool.false_eq_true, if_false, hdc] at hok
            exact Except.noConfusion hok
        | ok dfD =>
          have h' : numRef < (dfWrite st numRef dfD).length := by
            rw [length_dfWrite]; exact h
          obtain ⟨ihlen, ihframe, iherr, ihok⟩ := ih (dfWrite st numRef dfD) acc h'
          have hread : dfRead (dfWrite st numRef dfD) numRef = dfD :=
            dfRead_dfWrite_self st numRef _ h
          refine ⟨?_, ?_, ?_, ?_⟩
          · simp only [filterLoop, hlk, hn, Bool.false_eq_true, if_false, hdc]
            rw [ihlen, length_dfWrite]
          · intro j hj
            simp only [filterLoop, hlk, hn, Bool.false_eq_true, if_false, hdc]
            rw [ihframe j hj, dfRead_dfWrite_ne st numRef j _ hj]
          · intro e he
            simp only [filterLoopVal, hlk, hn, Bool.false_eq_true, if_false, hdc] at he
            rw [← hread] at he
            simp only [filterLoop, hlk, hn, Bool.false_eq_true, if_false, hdc]
            exact iherr e he
          · intro df2 nc hok
            simp only [filterLoopVal, hlk, hn, Bool.false_eq_true, if_false, hdc] at hok
            rw [← hread] at hok
            simp only [filterLoop, hlk, hn, Bool.false_eq_true, if_false, hdc]
            exact ihok df2 nc hok

/-! ### Helper lemmas: the suggestion builder's default objects -/

theorem getD_append_len {γ : Type} (l l2 : List γ) (d : γ) :
    (l ++ l2).getD l.length d = l2.getD 0 d := by
  rw [List.getD_append_right l l2 d l.length (Nat.le_refl _)]
  simp

theorem getD_append_len1 {γ : Type} (l l2 : List γ) (d : γ) :
    (l ++ l2).getD (l.length + 1) d = l2.getD 1 d := by
  rw [List.getD_append_right l l2 d _ (Nat.le_succ_of_le (Nat.le_refl _))]
  simp

theorem defineBuilder_eq {α β : Type} (st : PyStore α β) :
    defineBuilder st
      = (⟨st.lists ++ [[], []], st.dicts ++ [[], []]⟩,
         ⟨st.lists.length, "", st.dicts.length, st.dicts.length + 1, "column",
          st.lists.length + 1⟩) := by
  simp [defineBuilder, PyStore.allocList, PyStore.allocDict]

/-! ### Helper lemma: assembling _filter_numeric_types from its loop -/

theorem filter_numeric_types_spec (r : BaseRule) (st : DfStore) :
    (∀ j, j < st.length → dfRead (r.filter_numeric_types st).1 j = dfRead st j) ∧
    (∀ e, filterLoopVal r.column_types r.df_columns (dfRead st r.df) [] = Except.error e →
      (r.filter_numeric_types st).2 = Except.error e) ∧
    (∀ df2 nc,
      filterLoopVal r.column_types r.df_columns (dfRead st r.df) [] = Except.ok (df2, nc) →
      ∃ resRef, (r.filter_numeric_types st).2 = Except.ok (resRef, nc) ∧
        dfRead (r.filter_numeric_types st).1 resRef = df2.dropna) := by
  have hlen : st.length < (st ++ [dfRead st r.df]).length := by simp
  have hread1 : dfRead (st ++ [dfRead st r.df]) st.length = dfRead st r.df :=
    dfRead_append_self st _
  obtain ⟨slen, sframe, serr, sok⟩ :=
    filterLoop_spec r.column_types st.length r.df_columns (st ++ [dfRead st r.df]) [] hlen
  have hdef : r.filter_numeric_types st
      = (match filterLoop r.column_types st.length r.df_columns (st ++ [dfRead st r.df]) [] with
         | (st2, Except.error e) => (st2, Except.error e)
         | (st2, Except.ok nc) =>
           (st2 ++ [(dfRead st2 st.length).dropna], Except.ok (st2.length, nc))) := rfl
  rcases hfl : filterLoop r.column_types st.length r.df_columns (st ++ [dfRead st r.df]) []
    with ⟨stf, res⟩
  rw [hfl] at slen sframe serr sok hdef
  have hstf : stf.length = st.length + 1 := by
    have := slen
    simpa using this
  refine ⟨?_, ?_, ?_⟩
  · intro j hj
    have hjne : j ≠ st.length := by omega
    have hframe2 : dfRead stf j = dfRead st j := by
      have h1 := sframe j hjne
      rw [dfRead_append_lt st _ j hj] at h1
      exact h1
    cases res with
    | error e =>
      rw [hdef]
      exact hframe2
    | ok nc =>
      rw [hdef]
      have hjlt : j < stf.length := by omega
      exact (dfRead_append_lt stf _ j hjlt).trans hframe2
  · intro e he
    have hres : res = Except.error e := serr e (by rw [hread1]; exact he)
    subst hres
    rw [hdef]
  · intro df2 nc hok
    have hsok := sok df2 nc (by rw [hread1]; exact hok)
    have hres : res = Except.ok nc := hsok.1
    have hstfread : dfRead stf st.length = df2 := hsok.2
    subst hres
    refine ⟨stf.length, ?_, ?_⟩
    · rw [hdef]
    · rw [hdef, dfRead_append_self stf _, hstfread]

/-! ### Claim theorems -/

/-- C1: the claim states that suggestions built with the optional
list/mapping arguments omitted get freshly allocated, independent empty
containers, so that mutating one suggestion's payload never affects the
other's.  The code instead uses Python mutable default arguments,
allocated once at definition time: two suggestions built with the fields
omitted reference the same default list object, the object starts out
empty, and appending to the first suggestion's `action_arguments` is
visible through the second suggestion's `action_arguments`. -/
theorem build_transformer_action_suggestion_shares_default_containers :
    (build_transformer_action_suggestion (defineBuilder (⟨[], []⟩ : PyStore String String)).2
        "t1" "m1" "remove" none none none none none none).action_payload.action_arguments
      = (build_transformer_action_suggestion (defineBuilder (⟨[], []⟩ : PyStore String String)).2
        "t2" "m2" "impute" none none none none none none).action_payload.action_arguments
    ∧ PyStore.readList (defineBuilder (⟨[], []⟩ : PyStore String String)).1
        (build_transformer_action_suggestion (defineBuilder (⟨[], []⟩ : PyStore String String)).2
          "t2" "m2" "impute" none none none none none none).action_payload.action_arguments
      = []
    ∧ PyStore.readList
        (PyStore.listAppend (defineBuilder (⟨[], []⟩ : PyStore String String)).1
          (build_transformer_action_suggestion
            (defineBuilder (⟨[], []⟩ : PyStore String String)).2
            "t1" "m1" "remove" none none none none none none).action_payload.action_arguments
          "col_a")
        (build_transformer_action_suggestion (defineBuilder (⟨[], []⟩ : PyStore String String)).2
          "t2" "m2" "impute" none none none none none none).action_payload.action_arguments
      = ["col_a"] :=
  ⟨rfl, rfl, rfl⟩

/-- C5: every suggestion produced by `_build_transformer_action_suggestion`
has `status = STATUS_NOT_APPLIED`; with the `axis` argument unspecified the
payload's axis is `'column'`; and, in the state produced by executing the
`def` (before any mutation), each unspecified optional payload field is an
empty container: empty list objects for `action_arguments`/`outputs`, the
empty string for `action_code`, empty dict objects for
`action_options`/`action_variables`. -/
theorem build_transformer_action_suggestion_defaults {α β : Type} (st0 : PyStore α β)
    (title message action_type : String) (aa : Option Nat) (ac : Option String)
    (ao av : Option Nat) (ax : Option String) (out : Option Nat) :
    (build_transformer_action_suggestion (defineBuilder st0).2 title message action_type
        aa ac ao av ax out).status = STATUS_NOT_APPLIED
    ∧ (build_transformer_action_suggestion (defineBuilder st0).2 title message action_type
        aa ac ao av none out).action_payload.axis = "column"
    ∧ (build_transformer_action_suggestion (defineBuilder st0).2 title message action_type
        aa none ao av ax out).action_payload.action_code = ""
    ∧ (defineBuilder st0).1.readList
        (build_transformer_action_suggestion (defineBuilder st0).2 title message action_type
          none ac ao av ax out).action_payload.action_arguments = []
    ∧ (defineBuilder st0).1.readList
        (build_transformer_action_suggestion (defineBuilder st0).2 title message action_type
          aa ac ao av ax none).action_payload.outputs = []
    ∧ (defineBuilder st0).1.readDict
        (build_transformer_action_suggestion (defineBuilder st0).2 title message action_type
          aa ac none av ax out).action_payload.action_options = []
    ∧ (defineBuilder st0).1.readDict
        (build_transformer_action_suggestion (defineBuilder st0).2 title message action_type
          aa ac ao none ax out).action_payload.action_variables = [] := by
  rw [defineBuilder_eq]
  refine ⟨rfl, rfl, rfl, ?_, ?_, ?_, ?_⟩
  · show (st0.lists ++ [[], []]).getD st0.lists.length [] = []
    rw [getD_append_len]
    rfl
  · show (st0.lists ++ [[], []]).getD (st0.lists.length + 1) [] = []
    rw [getD_append_len1]
    rfl
  · show (st0.dicts ++ [[], []]).getD st0.dicts.length [] = []
    rw [getD_append_len]
    rfl
  · show (st0.dicts ++ [[], []]).getD (st0.dicts.length + 1) [] = []
    rw [getD_append_len1]
    rfl

/-- C5 witness: the theorem instantiated at the empty store with every
optional argument omitted. -/
theorem build_transformer_action_suggestion_defaults_witness :
    (build_transformer_action_suggestion (defineBuilder (⟨[], []⟩ : PyStore String String)).2
        "t" "m" "remove" none none none none none none).status = STATUS_NOT_APPLIED
    ∧ (build_transformer_action_suggestion (defineBuilder (⟨[], []⟩ : PyStore String String)).2
        "t" "m" "remove" none none none none none none).action_payload.axis = "column"
    ∧ (build_transformer_action_suggestion (defineBuilder (⟨[], []⟩ : PyStore String String)).2
        "t" "m" "remove" none none none none none none).action_payload.action_code = ""
    ∧ (defineBuilder (⟨[], []⟩ : PyStore String String)).1.readList
        (build_transformer_action_suggestion
          (defineBuilder (⟨[], []⟩ : PyStore String String)).2
          "t" "m" "remove" none none none none none none).action_payload.action_arguments = []
    ∧ (defineBuilder (⟨[], []⟩ : PyStore String String)).1.readList
        (build_transformer_action_suggestion
          (defineBuilder (⟨[], []⟩ : PyStore String String)).2
          "t" "m" "remove" none none none none none none).action_payload.outputs = []
    ∧ (defineBuilder (⟨[], []⟩ : PyStore String String)).1.readDict
        (build_transformer_action_suggestion
          (defineBuilder (⟨[], []⟩ : PyStore String String)).2
          "t" "m" "remove" none none none none none none).action_payload.action_options = []
    ∧ (defineBuilder (⟨[], []⟩ : PyStore String String)).1.readDict
        (build_transformer_action_suggestion
          (defineBuilder (⟨[], []⟩ : PyStore String String)).2
          "t" "m" "remove" none none none none none none).action_payload.action_variables = [] :=
  build_transformer_action_suggestion_defaults (⟨[], []⟩ : PyStore String String)
    "t" "m" "remove" none none none none none none

/-- C4: for a column sequence whose types are all present in the rule's
`column_types`, `_build_action_variables` returns a mapping whose keys are
exactly the input columns and whose entry for each column `c` is the
descriptor with `feature.column_type = column_types[c]`,
`feature.uuid = c` and `type = 'feature'`. -/
theorem build_action_variables_correct (r : BaseRule) (columns : List String)
    (hcov : ∀ c ∈ columns, (List.lookup c r.column_types).isSome) :
    ∃ m, r.build_action_variables columns = Except.ok m ∧
      (∀ k, (List.lookup k m).isSome ↔ k ∈ columns) ∧
      (∀ c ∈ columns, ∃ t, List.lookup c r.column_types = some t ∧
        List.lookup c m = some ⟨⟨t, c⟩, "feature"⟩) := by
  obtain ⟨m, hm, hchar⟩ := buildAVLoop_ok r.column_types columns [] hcov
  refine ⟨m, hm, ?_, ?_⟩
  · intro k
    rw [hchar k]
    by_cases hk : k ∈ columns
    · rw [if_pos hk]
      cases hl : List.lookup k r.column_types with
      | none =>
        have := hcov k hk
        rw [hl] at this
        simp at this
      | some t => simp [hk]
    · rw [if_neg hk]
      simp [List.lookup, hk]
  · intro c hc
    have hcs := hcov c hc
    cases hl : List.lookup c r.column_types with
    | none =>
      rw [hl] at hcs
      simp at hcs
    | some t =>
      refine ⟨t, rfl, ?_⟩
      rw [hchar c, if_pos hc, hl]
      rfl

/-- C4 witness: the theorem applied to a concrete rule over the example
column-type map with input columns `[age, city]`. -/
theorem build_action_variables_correct_witness :
    (∀ c ∈ ["age", "city"],
      (List.lookup c (⟨0, ["age", "city"], ctExample, []⟩ : BaseRule).column_types).isSome)
    ∧ (∃ m, (⟨0, ["age", "city"], ctExample, []⟩ : BaseRule).build_action_variables
          ["age", "city"] = Except.ok m ∧
        (∀ k, (List.lookup k m).isSome ↔ k ∈ ["age", "city"]) ∧
        (∀ c ∈ ["age", "city"], ∃ t,
          List.lookup c (⟨0, ["age", "city"], ctExample, []⟩ : BaseRule).column_types = some t ∧
          List.lookup c m = some ⟨⟨t, c⟩, "feature"⟩)) :=
  ⟨by decide,
   build_action_variables_correct (⟨0, ["age", "city"], ctExample, []⟩ : BaseRule)
     ["age", "city"] (by decide)⟩

/-- C2: for a rule constructed over a store slot holding a dataframe with
distinct column labels, and a column-type map covering all of its columns,
`_filter_numeric_types` succeeds and returns `numeric_columns` equal to
the dataset's columns whose type is numeric in the original column order;
the returned dataframe has exactly those columns, contains no null cells,
and has at most as many rows as the input. -/
theorem filter_numeric_types_correct (st : DfStore) (dfRef : Nat)
    (ct stats : List (String × String))
    (hnodup : (dfRead st dfRef).header.Nodup)
    (hcov : ∀ c ∈ (dfRead st dfRef).header, (List.lookup c ct).isSome) :
    ∃ resRef nc,
      ((BaseRule.init st dfRef ct stats).filter_numeric_types st).2
        = Except.ok (resRef, nc)
      ∧ nc = (dfRead st dfRef).header.filter (numericP ct)
      ∧ (dfRead ((BaseRule.init st dfRef ct stats).filter_numeric_types st).1 resRef).header
        = (dfRead st dfRef).header.filter (numericP ct)
      ∧ (∀ row ∈ (dfRead ((BaseRule.init st dfRef ct stats).filter_numeric_types st).1
            resRef).rows, ∀ cell ∈ row, cell.isSome = true)
      ∧ (dfRead ((BaseRule.init st dfRef ct stats).filter_numeric_types st).1
            resRef).rows.length
        ≤ (dfRead st dfRef).rows.length := by
  obtain ⟨df2, hvalok, hhd, hrows⟩ := filterLoopVal_ok ct (dfRead st dfRef).header [] []
    (dfRead st dfRef) (by simp) hnodup (by simp) hcov
  obtain ⟨_, _, sok⟩ := filter_numeric_types_spec (BaseRule.init st dfRef ct stats) st
  obtain ⟨resRef, hres, hread⟩ :=
    sok df2 ((dfRead st dfRef).header.filter (numericP ct)) (by simpa using hvalok)
  refine ⟨resRef, _, hres, rfl, ?_, ?_, ?_⟩
  · rw [hread, dropna_header, hhd]
    simp
  · intro row hrow
    rw [hread] at hrow
    exact dropna_no_nulls df2 row hrow
  · rw [hread]
    calc df2.dropna.rows.length ≤ df2.rows.length := dropna_rows_length_le df2
      _ = (dfRead st dfRef).rows.length := hrows

/-- C2 witness: the theorem applied to the example dataframe
(`age` numeric with one missing value, `city` text). -/
theorem filter_numeric_types_correct_witness :
    ((dfRead [dfExample] 0).header.Nodup
      ∧ ∀ c ∈ (dfRead [dfExample] 0).header, (List.lookup c ctExample).isSome)
    ∧ (∃ resRef nc,
        ((BaseRule.init [dfExample] 0 ctExample []).filter_numeric_types [dfExample]).2
          = Except.ok (resRef, nc)
        ∧ nc = (dfRead [dfExample] 0).header.filter (numericP ctExample)
        ∧ (dfRead ((BaseRule.init [dfExample] 0 ctExample []).filter_numeric_types
              [dfExample]).1 resRef).header
          = (dfRead [dfExample] 0).header.filter (numericP ctExample)
        ∧ (∀ row ∈ (dfRead ((BaseRule.init [dfExample] 0 ctExample []).filter_numeric_types
              [dfExample]).1 resRef).rows, ∀ cell ∈ row, cell.isSome = true)
        ∧ (dfRead ((BaseRule.init [dfExample] 0 ctExample []).filter_numeric_types
              [dfExample]).1 resRef).rows.length
          ≤ (dfRead [dfExample] 0).rows.length) :=
  ⟨⟨by decide, by decide⟩,
   filter_numeric_types_correct [dfExample] 0 ctExample [] (by decide) (by decide)⟩

/-- C6: `_filter_numeric_types` never mutates the dataframe object the
rule holds: every dataframe reference that was live before the call —
in particular the rule's own `df` — still holds exactly the same value
(columns, rows and cells) in the store the call returns, whether the call
succeeds or raises. -/
theorem filter_numeric_types_no_mutation (r : BaseRule) (st : DfStore)
    (h : r.df < st.length) :
    dfRead ((r.filter_numeric_types st)).1 r.df = dfRead st r.df
    ∧ ∀ j, j < st.length → dfRead ((r.filter_numeric_types st)).1 j = dfRead st j :=
  ⟨(filter_numeric_types_spec r st).1 r.df h,
   (filter_numeric_types_spec r st).1⟩

/-- C6 witness: the theorem applied to a rule over the example store. -/
theorem filter_numeric_types_no_mutation_witness :
    (BaseRule.init [dfExample] 0 ctExample []).df < ([dfExample] : DfStore).length
    ∧ (dfRead (((BaseRule.init [dfExample] 0 ctExample []).filter_numeric_types
          [dfExample])).1 (BaseRule.init [dfExample] 0 ctExample []).df
        = dfRead [dfExample] (BaseRule.init [dfExample] 0 ctExample []).df
      ∧ ∀ j, j < ([dfExample] : DfStore).length →
          dfRead (((BaseRule.init [dfExample] 0 ctExample []).filter_numeric_types
            [dfExample])).1 j = dfRead [dfExample] j) :=
  ⟨by decide,
   filter_numeric_types_no_mutation (BaseRule.init [dfExample] 0 ctExample [])
     [dfExample] (by decide)⟩

/-- C3: when the dataset has a column (with distinct labels) that is
absent from the type map, `_filter_numeric_types` raises a `KeyError`
naming a column absent from the map, and `_build_action_variables`, given
a column list containing such a column, does the same: neither silently
skips the column. -/
theorem missing_column_type_errors (st : DfStore) (dfRef : Nat)
    (ct stats : List (String × String)) (c : String)
    (hnodup : (dfRead st dfRef).header.Nodup)
    (hc : c ∈ (dfRead st dfRef).header)
    (hmiss : (List.lookup c ct).isSome = false) :
    (∃ c2, c2 ∈ (dfRead st dfRef).header ∧ (List.lookup c2 ct).isSome = false ∧
      ((BaseRule.init st dfRef ct stats).filter_numeric_types st).2 = Except.error c2)
    ∧ (∀ columns : List String, c ∈ columns →
      ∃ c2, c2 ∈ columns ∧ (List.lookup c2 ct).isSome = false ∧
        (BaseRule.init st dfRef ct stats).build_action_variables columns
          = Except.error c2) := by
  constructor
  · obtain ⟨c2, hc2mem, hc2miss, hvalerr⟩ := filterLoopVal_err ct (dfRead st dfRef).header
      [] [] (dfRead st dfRef) (by simp) hnodup (by simp) ⟨c, hc, hmiss⟩
    obtain ⟨_, serr, _⟩ := filter_numeric_types_spec (BaseRule.init st dfRef ct stats) st
    exact ⟨c2, hc2mem, hc2miss, serr c2 hvalerr⟩
  · intro columns hcmem
    exact buildAVLoop_err ct columns [] ⟨c, hcmem, hmiss⟩

/-- C3 witness: the theorem applied to the example dataframe with a type
map missing the `city` column. -/
theorem missing_column_type_errors_witness :
    ((dfRead [dfExample] 0).header.Nodup
      ∧ "city" ∈ (dfRead [dfExample] 0).header
      ∧ (List.lookup "city" ctMissing).isSome = false)
    ∧ ((∃ c2, c2 ∈ (dfRead [dfExample] 0).header
          ∧ (List.lookup c2 ctMissing).isSome = false
          ∧ ((BaseRule.init [dfExample] 0 ctMissing []).filter_numeric_types [dfExample]).2
            = Except.error c2)
      ∧ (∀ columns : List String, "city" ∈ columns →
          ∃ c2, c2 ∈ columns ∧ (List.lookup c2 ctMissing).isSome = false ∧
            (BaseRule.init [dfExample] 0 ctMissing []).build_action_variables columns
              = Except.error c2)) :=
  ⟨⟨by decide, by decide, by decide⟩,
   missing_column_type_errors [dfExample] 0 ctMissing [] "city"
     (by decide) (by decide) (by decide)⟩

/-- C7 counterexample: a pipeline whose metadata carries no
`feature_set_id` has its action list replaced by `update_pipeline`, yet
no `prev_version` is recorded anywhere — the observable event list is
exactly the replacement, with no `write_files` event. -/
theorem update_pipeline_no_prev_version_without_feature_set :
    (update_pipeline envU fsOfU none true ⟨["old_action"], none⟩
        (some ["new_action"])).1.actions = ["new_action"]
    ∧ (update_pipeline envU fsOfU none true ⟨["old_action"], none⟩
        (some ["new_action"])).2 = [PipeEv.set_pipeline] :=
  ⟨rfl, rfl⟩

/-- C7 (amended): whenever `update_pipeline` runs, the stored action list
is superseded wholesale by the complete title-filled request list; and
whenever the pipeline references a feature set, `prev_version` is recorded
(through the feature set's file write) as the length of the action list
immediately before the replacement. -/
theorem update_pipeline_versioning {A Df R : Type} (env : UpdateEnv A Df R)
    (featureSetOf : Nat → FeatureSetRec Df) (api_key : Option String) (sync_ok : Bool)
    (p : PipelineRec A) (req : Option (List A)) :
    (update_pipeline env featureSetOf api_key sync_ok p req).1.actions
      = env.generate_action_titles (req.getD [])
    ∧ (∀ i, p.feature_set_id = some i →
        ∃ res, PipeEv.write_files res p.actions.length
          ∈ (update_pipeline env featureSetOf api_key sync_ok p req).2) := by
  refine ⟨?_, ?_⟩
  · cases hfs : p.feature_set_id <;> cases hk : api_key <;>
      simp [update_pipeline, hfs, hk]
  · intro i hi
    cases hk : api_key with
    | some k =>
      refine ⟨env.clean_data (env.transform (env.generate_action_titles (req.getD []))
        (featureSetOf i).data_orig) (featureSetOf i).column_types, ?_⟩
      simp [update_pipeline, hi, hk]
    | none =>
      refine ⟨env.clean_data (env.transform (env.generate_action_titles (req.getD []))
        (featureSetOf i).data_orig) (featureSetOf i).column_types, ?_⟩
      simp [update_pipeline, hi, hk]

/-- C7 witness: the amended theorem applied to a pipeline that references
feature set 0 and holds two actions before the replacement. -/
theorem update_pipeline_versioning_witness :
    (update_pipeline envU fsOfU none true ⟨["a0", "a1"], some 0⟩ (some ["b"])).1.actions
      = envU.generate_action_titles ((some ["b"]).getD [])
    ∧ (∀ i, (⟨["a0", "a1"], some 0⟩ : PipelineRec String).feature_set_id = some i →
        ∃ res, PipeEv.write_files res
            (⟨["a0", "a1"], some 0⟩ : PipelineRec String).actions.length
          ∈ (update_pipeline envU fsOfU none true ⟨["a0", "a1"], some 0⟩ (some ["b"])).2) :=
  update_pipeline_versioning envU fsOfU none true ⟨["a0", "a1"], some 0⟩ (some ["b"])

/-- C8: `update_pipeline` fires the remote sync exactly when a credential
is present, strictly after all local mutation events (replacement and file
writes), and the local outcome — both the resulting pipeline state and the
mutation events — is identical whether the sync succeeds or fails. -/
theorem update_pipeline_sync_nonfatal {A Df R : Type} (env : UpdateEnv A Df R)
    (featureSetOf : Nat → FeatureSetRec Df) (api_key : Option String)
    (p : PipelineRec A) (req : Option (List A)) :
    ∃ evs0 : List (PipeEv R),
      (∀ sync_ok, (update_pipeline env featureSetOf api_key sync_ok p req).2
        = evs0 ++ (if api_key.isSome then [PipeEv.sync_call sync_ok] else []))
      ∧ PipeEv.set_pipeline ∈ evs0
      ∧ (∀ b, PipeEv.sync_call b ∉ evs0)
      ∧ (∀ i, p.feature_set_id = some i →
          ∃ res, PipeEv.write_files res p.actions.length ∈ evs0)
      ∧ (∀ so so2, (update_pipeline env featureSetOf api_key so p req).1
          = (update_pipeline env featureSetOf api_key so2 p req).1) := by
  cases hfs : p.feature_set_id with
  | some i =>
    refine ⟨[PipeEv.set_pipeline, PipeEv.write_files (env.clean_data (env.transform
      (env.generate_action_titles (req.getD [])) (featureSetOf i).data_orig)
      (featureSetOf i).column_types) p.actions.length], ?_, ?_, ?_, ?_, ?_⟩
    · intro so
      cases hk : api_key <;> simp [update_pipeline, hfs, hk]
    · simp
    · intro b
      simp
    · intro i2 hi2
      injection hi2 with hii
      subst hii
      exact ⟨_, List.mem_cons_of_mem _ (List.mem_cons_self _ _)⟩
    · intro so so2
      cases hk : api_key <;> simp [update_pipeline, hfs, hk]
  | none =>
    refine ⟨[PipeEv.set_pipeline], ?_, ?_, ?_, ?_, ?_⟩
    · intro so
      cases hk : api_key <;> simp [update_pipeline, hfs, hk]
    · simp
    · intro b
      simp
    · intro i2 hi2
      exact Option.noConfusion hi2
    · intro so so2
      cases hk : api_key <;> simp [update_pipeline, hfs, hk]

/-- C8 witness: the theorem applied with a credential present and a
feature set attached. -/
theorem update_pipeline_sync_nonfatal_witness :
    ∃ evs0 : List (PipeEv Unit),
      (∀ sync_ok, (update_pipeline envU fsOfU (some "key") sync_ok
          ⟨["a0"], some 0⟩ (some ["b"])).2
        = evs0 ++ (if (some "key" : Option String).isSome
            then [PipeEv.sync_call sync_ok] else []))
      ∧ PipeEv.set_pipeline ∈ evs0
      ∧ (∀ b, PipeEv.sync_call b ∉ evs0)
      ∧ (∀ i, (⟨["a0"], some 0⟩ : PipelineRec String).feature_set_id = some i →
          ∃ res, PipeEv.write_files res
            (⟨["a0"], some 0⟩ : PipelineRec String).actions.length ∈ evs0)
      ∧ (∀ so so2,
          (update_pipeline envU fsOfU (some "key") so ⟨["a0"], some 0⟩ (some ["b"])).1
            = (update_pipeline envU fsOfU (some "key") so2 ⟨["a0"], some 0⟩
                (some ["b"])).1) :=
  update_pipeline_sync_nonfatal envU fsOfU (some "key") ⟨["a0"], some 0⟩ (some ["b"])

/-- C9: an endpoint wrapped by `rescue_errors` whose body raises returns a
response with HTTP status 200 whose JSON body carries the error object —
the internal code (500 for the bare decorator used in app.py), the
exception text and the traceback — and never propagates the exception. -/
theorem rescue_errors_returns_200 {γ A : Type} (endpoint : A → Except PyExc (Response γ))
    (args : A) (e : PyExc) (h : endpoint args = Except.error e) :
    rescue_errors_default endpoint args
      = ⟨RespBody.err ⟨500, e.stack, e.text, e.formatted, none⟩, 200, "application/json"⟩
    ∧ (rescue_errors_default endpoint args).status = 200
    ∧ ∀ error_code, rescue_errors error_code endpoint args
        = ⟨RespBody.err ⟨error_code, e.stack, e.text, e.formatted, none⟩, 200,
           "application/json"⟩ := by
  refine ⟨?_, ?_, ?_⟩ <;> simp [rescue_errors_default, rescue_errors, h]

/-- C9 witness: the theorem applied to an endpoint that always raises. -/
theorem rescue_errors_returns_200_witness :
    endpointBoom () = Except.error ⟨"boom", "Traceback (most recent call last)", ["frame1"]⟩
    ∧ (rescue_errors_default endpointBoom ()
        = ⟨RespBody.err ⟨500, ["frame1"], "boom", "Traceback (most recent call last)", none⟩,
           200, "application/json"⟩
      ∧ (rescue_errors_default endpointBoom ()).status = 200
      ∧ ∀ error_code, rescue_errors error_code endpointBoom ()
          = ⟨RespBody.err ⟨error_code, ["frame1"], "boom",
              "Traceback (most recent call last)", none⟩, 200, "application/json"⟩) :=
  ⟨rfl, rescue_errors_returns_200 endpointBoom ()
    ⟨"boom", "Traceback (most recent call last)", ["frame1"]⟩ rfl⟩

/-- C10: `clean_df_with_pipeline` called with `id`, `path` and `remote_id`
all absent returns the input dataframe itself unchanged: no loader runs,
no transform is applied, and the only observable effect is the logged
error. -/
theorem clean_df_with_pipeline_noop_without_id {A Df : Type} (env : CleanEnv A Df)
    (global_api_key : Option String) (df : Df) (mage_api_key : Option String) :
    clean_df_with_pipeline env global_api_key df none none none mage_api_key
      = (df, [CleanEv.log_error]) := rfl
